import Mathlib

/-!
Shallow embedding of the JWT-authentication FastAPI service
(`app.py`, `schemas.py`, `utils.py`) and proofs about its behaviour.

Modelling conventions:
* Machine time is an `Int` of seconds since the epoch; `datetime.utcnow()`
  becomes an explicit `now` parameter, `timedelta(minutes = m)` becomes
  `m * 60` seconds.
* Python exceptions are `Except` errors (`PyError`); FastAPI `HTTPException`
  and unhandled Python exceptions are merged into one `ApiError` sum, since
  both abort the request.
* The external bcrypt backend (passlib) and the external JWT codec (jose)
  are modelled symbolically: a well-formed bcrypt hash is the constructor
  `HashStr.bcrypt salt password` (the digest of a perfectly
  collision-resistant keyed function is determined by, and determines, the
  `(salt, password)` pair), any other string is `HashStr.raw`; a signed
  token is the record of the claims it carries, the key it was signed with
  and the algorithm (an ideal unforgeable MAC).  Randomness (bcrypt salt,
  `uuid4`) is passed in as an explicit parameter.
* The replit key-value store `db` is an association list threaded through
  the handlers in state-passing style.
-/

namespace JWTAuth

/-- Python-level exceptions that the embedded code can raise:
`typeError` models the `TypeError` raised by `datetime + int`,
`unknownHash` models passlib's `UnknownHashError` (a `ValueError`)
raised when a hash string cannot be identified as any configured scheme. -/
inductive PyError where
  | typeError (msg : String)
  | unknownHash
  deriving Repr, DecidableEq

/-- The `TypeError` raised by `datetime.utcnow() + expires_delta` when
`expires_delta` is an `int` (Python only adds `timedelta` to `datetime`). -/
def datetimePlusIntError : PyError :=
  .typeError "unsupported operand type for +: datetime and int"

/-- A string in hash position.  `bcrypt salt password` is the well-formed
bcrypt output whose embedded salt is `salt` and whose digest was computed
from `password` (digest idealised as collision-free, so it is represented
by the password itself); `raw s` is any string that passlib cannot
identify as a bcrypt hash. -/
inductive HashStr where
  | bcrypt (salt : String) (password : String)
  | raw (s : String)
  deriving Repr, DecidableEq

/-- Embeds `utils.get_hashed_password`: `password_context.hash(password)`
with bcrypt.  The random salt drawn by passlib is the explicit `salt`
parameter. -/
def get_hashed_password (password : String) (salt : String) : HashStr :=
  .bcrypt salt password

/-- Embeds `utils.verify_password`: `password_context.verify(password,
hashed_pass)`.  On a well-formed bcrypt hash, passlib recomputes the digest
with the embedded salt and compares in constant time, so (in the ideal
model) the result is `password = stored password`.  On a string it cannot
identify as bcrypt, passlib raises `UnknownHashError` — it does not return
`false`. -/
def verify_password (password : String) (hashed_pass : HashStr) : Except PyError Bool :=
  match hashed_pass with
  | .bcrypt _salt pw => .ok (password == pw)
  | .raw _ => .error .unknownHash

/-- Embeds the constant `ACCESS_TOKEN_EXPIRE_MINUTES = 30` of `utils.py`. -/
def ACCESS_TOKEN_EXPIRE_MINUTES : Int := 30

/-- Embeds the constant `REFRESH_TOKEN_EXPIRE_MINUTES = 60 * 24 * 7` of `utils.py`. -/
def REFRESH_TOKEN_EXPIRE_MINUTES : Int := 60 * 24 * 7

/-- Embeds the constant `ALGORITHM = "HS256"` of `utils.py`. -/
def ALGORITHM : String := "HS256"

/-- Embeds the constant `JWT_SECRET_KEY = "ashish"` of `utils.py`
(the commented-out `os.environ` read is dead code; the literal is what runs). -/
def JWT_SECRET_KEY : String := "ashish"

/-- Embeds the constant `JWT_REFRESH_SECRET_KEY = "ashish"` of `utils.py`. -/
def JWT_REFRESH_SECRET_KEY : String := "ashish"

/-- Embeds `schemas.TokenPayload`: the claims `sub` and `exp` carried by a
token (`exp` as epoch seconds; both claims are always set by the encoders,
so the pydantic `None` defaults never arise). -/
structure TokenPayload where
  sub : String
  exp : Int
  deriving Repr, DecidableEq

/-- A signed JWT, modelled symbolically as the claims it carries together
with the signing key and algorithm (ideal unforgeable HMAC: a signature
verifies exactly when the same key and algorithm are used). -/
structure Token where
  payload : TokenPayload
  secret : String
  alg : String
  deriving Repr, DecidableEq

/-- Decode failures of the token codec. -/
inductive JWTError where
  | invalidSignature
  | expired
  deriving Repr, DecidableEq

/-- Modelled from the spec: the decode half of the Token Codec
(`jose.jwt.decode`, used by `deps.get_current_user`, which is not among the
source files).  Signature verification happens first: a key or algorithm
mismatch fails with `InvalidSignature` regardless of claim content; then a
token whose current time has reached `exp` fails with `Expired`; otherwise
the claims are returned.  (A `Malformed` case cannot arise for symbolic
tokens.) -/
def jwtDecode (t : Token) (secret : String) (now : Int) : Except JWTError TokenPayload :=
  if t.secret ≠ secret ∨ t.alg ≠ ALGORITHM then .error .invalidSignature
  else if t.payload.exp ≤ now then .error .expired
  else .ok t.payload

/-- The claims-building-plus-signing step shared by both token creators:
`to_encode = ⦃exp: expires_delta, sub: str(subject)⦄` followed by
`jwt.encode(to_encode, secret, ALGORITHM)`, generalised over the ttl that
determines `exp = now + ttl` (this is the Token Codec encode of the spec;
in `utils.py` the only non-raising path instantiates `ttl` with the
default expiry). -/
def tokenEncode (subject : String) (secret : String) (ttl : Int) (now : Int) : Token :=
  { payload := { sub := subject, exp := now + ttl }, secret := secret, alg := ALGORITHM }

/-- Embeds `utils.create_access_token`.  When `expires_delta` is not
`None`, the source computes `datetime.utcnow() + expires_delta` with
`expires_delta : int`, which raises `TypeError`; only the default path
(`expires_delta = None`) builds `exp = now + 30 minutes` and signs with
`JWT_SECRET_KEY`. -/
def create_access_token (subject : String) (expires_delta : Option Int) (now : Int) :
    Except PyError Token :=
  match expires_delta with
  | some _ => .error datetimePlusIntError
  | none => .ok (tokenEncode subject JWT_SECRET_KEY (ACCESS_TOKEN_EXPIRE_MINUTES * 60) now)

/-- Embeds `utils.create_refresh_token`: same shape as
`create_access_token` but with the 7-day default expiry and
`JWT_REFRESH_SECRET_KEY`. -/
def create_refresh_token (subject : String) (expires_delta : Option Int) (now : Int) :
    Except PyError Token :=
  match expires_delta with
  | some _ => .error datetimePlusIntError
  | none => .ok (tokenEncode subject JWT_REFRESH_SECRET_KEY (REFRESH_TOKEN_EXPIRE_MINUTES * 60) now)

/-- The user record stored in the replit db by `create_user`:
`⦃email, password (hashed), id (uuid4 string)⦄`. -/
structure UserRecord where
  email : String
  password : HashStr
  id : String
  deriving Repr, DecidableEq

/-- The replit key-value store, keyed by email. -/
abbrev Db : Type := List (String × UserRecord)

/-- Embeds `db.get(key, None)`. -/
def dbGet (db : Db) (key : String) : Option UserRecord :=
  match List.find? (fun kv => kv.fst == key) db with
  | some kv => some kv.snd
  | none => none

/-- Embeds `db[key] = value` (last-write-wins overwrite). -/
def dbSet (db : Db) (key : String) (v : UserRecord) : Db :=
  (key, v) :: List.filter (fun kv => kv.fst != key) db

/-- Embeds `schemas.UserAuth`: the validated signup/login request body. -/
structure UserAuth where
  email : String
  password : String
  deriving Repr, DecidableEq

/-- Embeds the pydantic validation of `schemas.UserAuth`:
`password: str = Field(..., min_length=5, max_length=24)`.  A request body
whose password length is outside 5..24 (inclusive) is rejected by FastAPI
before the handler runs. -/
def mkUserAuth (email : String) (password : String) : Option UserAuth :=
  if 5 ≤ password.length ∧ password.length ≤ 24 then some { email := email, password := password }
  else none

/-- Embeds `schemas.UserOut`: the response model `⦃id, email⦄`. -/
structure UserOut where
  id : String
  email : String
  deriving Repr, DecidableEq

/-- Request-aborting failures: `http status detail` embeds a raised
`HTTPException`, `py e` an unhandled Python exception. -/
inductive ApiError where
  | http (status : Nat) (detail : String)
  | py (e : PyError)
  deriving Repr, DecidableEq

/-- Embeds `schemas.TokenSchema`: the login response carrying both tokens. -/
structure TokenSchema where
  access_token : Token
  refresh_token : Token
  deriving Repr, DecidableEq

/-- Embeds the `/signup` handler `app.create_user`: if `db.get(data.email)`
is not `None`, raise `HTTPException(400, "User with this email already
exists")`; otherwise build the record with the hashed password and a fresh
`uuid4` (the explicit `newId`), store it under the email and return it.
The handler returns the full record; the route's `response_model=UserOut`
projection is `signupResponse` below. -/
def create_user (db : Db) (data : UserAuth) (newId : String) (salt : String) :
    Except ApiError UserRecord × Db :=
  match dbGet db data.email with
  | some _ => (.error (.http 400 "User with this email already exists"), db)
  | none =>
      let user : UserRecord :=
        { email := data.email, password := get_hashed_password data.password salt, id := newId }
      (.ok user, dbSet db data.email user)

/-- Embeds FastAPI serialising the handler result through
`response_model=UserOut`: only `id` and `email` are returned to the caller. -/
def signupResponse (r : Except ApiError UserRecord × Db) : Except ApiError UserOut × Db :=
  (r.fst.map (fun u => { id := u.id, email := u.email }), r.snd)

/-- The full `/signup` request pipeline: pydantic validation of the body
(rejection is FastAPI's 422 validation error, before the handler and hence
before any store access), then the handler, then the response model. -/
def signupRequest (db : Db) (email : String) (password : String) (newId : String)
    (salt : String) : Except ApiError UserOut × Db :=
  match mkUserAuth email password with
  | none => (.error (.http 422 "validation error"), db)
  | some data => signupResponse (create_user db data newId salt)

/-- Embeds the `/login` handler `app.login`: look up the form username; if
absent raise `HTTPException(400, "Incorrect email or password")`; verify
the form password against the stored hash (an exception from passlib
propagates); on mismatch raise the same `HTTPException`; on success return
both freshly created tokens. -/
def login (db : Db) (username : String) (password : String) (now : Int) :
    Except ApiError TokenSchema × Db :=
  match dbGet db username with
  | none => (.error (.http 400 "Incorrect email or password"), db)
  | some user =>
      match verify_password password user.password with
      | .error e => (.error (.py e), db)
      | .ok false => (.error (.http 400 "Incorrect email or password"), db)
      | .ok true =>
          match create_access_token user.email none now,
                create_refresh_token user.email none now with
          | .ok a, .ok r => (.ok { access_token := a, refresh_token := r }, db)
          | .error e, _ => (.error (.py e), db)
          | .ok _, .error e => (.error (.py e), db)

/-- C1 (code evaluation at the failing input): the two JWT secret constants
are the same literal, so a refresh token for subject `a@x.com` decodes
successfully with the access secret (instead of failing with
`InvalidSignature`), and an access token decodes successfully with the
refresh secret. -/
theorem refresh_accepted_as_access :
    JWT_REFRESH_SECRET_KEY = JWT_SECRET_KEY ∧
    (create_refresh_token "a@x.com" none 0).map (fun t => jwtDecode t JWT_SECRET_KEY 0)
      = .ok (.ok { sub := "a@x.com", exp := 604800 }) ∧
    (create_access_token "a@x.com" none 0).map (fun t => jwtDecode t JWT_REFRESH_SECRET_KEY 0)
      = .ok (.ok { sub := "a@x.com", exp := 1800 }) :=
  ⟨rfl, rfl, rfl⟩

/-- C2 counterexample: on a store already holding `a@x.com`, duplicate
signup fails with HTTP status 400, which is not the 409 the claim states. -/
theorem signup_duplicate_not_409 :
    (create_user [("a@x.com", { email := "a@x.com", password := HashStr.bcrypt "s1" "secret1", id := "id1" })]
        { email := "a@x.com", password := "secret1" } "id2" "s2").fst
      = .error (.http 400 "User with this email already exists") ∧
    (400 : Nat) ≠ 409 :=
  ⟨rfl, by decide⟩

/-- C2 (amended): a signup whose email is already present fails with the
HTTP 400 duplicate-account error and leaves the store unchanged; when the
email is absent, a record with the fresh id and the given email is stored
and the response (through `UserOut`) is exactly the id/email pair. -/
theorem signup_duplicate_and_create (db : Db) (data : UserAuth) (newId salt : String) :
    ((dbGet db data.email).isSome →
      create_user db data newId salt = (.error (.http 400 "User with this email already exists"), db)) ∧
    (dbGet db data.email = none →
      ∃ rec : UserRecord,
        create_user db data newId salt = (.ok rec, dbSet db data.email rec) ∧
        rec.id = newId ∧ rec.email = data.email ∧
        (signupResponse (create_user db data newId salt)).fst = .ok { id := newId, email := data.email }) := by
  constructor
  · intro h
    cases hd : dbGet db data.email with
    | none => rw [hd] at h; simp at h
    | some u => simp [create_user, hd]
  · intro hd
    refine ⟨{ email := data.email, password := get_hashed_password data.password salt, id := newId }, ?_, rfl, rfl, ?_⟩
    · simp [create_user, hd]
    · simp [create_user, signupResponse, hd, Except.map]

/-- Witness for C2: both branches of `signup_duplicate_and_create` at
concrete inputs. -/
theorem signup_duplicate_and_create_witness :
    create_user [("a@x.com", { email := "a@x.com", password := HashStr.bcrypt "s1" "secret1", id := "id1" })]
        { email := "a@x.com", password := "secret1" } "id2" "s2"
      = (.error (.http 400 "User with this email already exists"),
         [("a@x.com", { email := "a@x.com", password := HashStr.bcrypt "s1" "secret1", id := "id1" })]) ∧
    ∃ rec : UserRecord,
      create_user [] { email := "b@x.com", password := "secret1" } "id3" "s3"
        = (.ok rec, dbSet [] "b@x.com" rec) ∧
      rec.id = "id3" ∧ rec.email = "b@x.com" ∧
      (signupResponse (create_user [] { email := "b@x.com", password := "secret1" } "id3" "s3")).fst
        = .ok { id := "id3", email := "b@x.com" } :=
  ⟨(signup_duplicate_and_create
      [("a@x.com", { email := "a@x.com", password := HashStr.bcrypt "s1" "secret1", id := "id1" })]
      { email := "a@x.com", password := "secret1" } "id2" "s2").1 (by decide),
   (signup_duplicate_and_create [] { email := "b@x.com", password := "secret1" } "id3" "s3").2 rfl⟩

/-- C3 (code evaluation at the failing input): encoding with `ttl = 0` via
`create_access_token` raises a `TypeError` instead of returning an
already-expired token; for reference, the decode model does fail with
`Expired` on any token whose `exp` has been reached. -/
theorem ttl_nonpositive_raises :
    create_access_token "a@x.com" (some 0) 0 = .error datetimePlusIntError ∧
    jwtDecode (tokenEncode "a@x.com" JWT_SECRET_KEY 0 0) JWT_SECRET_KEY 0 = .error .expired ∧
    jwtDecode (tokenEncode "a@x.com" JWT_SECRET_KEY (-5) 3) JWT_SECRET_KEY 3 = .error .expired :=
  ⟨rfl, rfl, rfl⟩

/-- C4 counterexample: `verify_password` on a string that is not a bcrypt
hash raises `UnknownHashError`; in particular it does not return `false`
(nor any boolean). -/
theorem verify_malformed_throws :
    verify_password "secret1" (HashStr.raw "not-a-bcrypt-hash") = .error .unknownHash ∧
    ∀ b : Bool, verify_password "secret1" (HashStr.raw "not-a-bcrypt-hash") ≠ .ok b :=
  ⟨rfl, by intro b; cases b <;> simp [verify_password]⟩

/-- C4 (amended): on a well-formed bcrypt hash `verify_password` never
throws and returns a boolean; on a malformed hash string it raises
passlib's `UnknownHashError` rather than returning `false`. -/
theorem verify_total_on_bcrypt (p salt pw : String) :
    (∃ b : Bool, verify_password p (get_hashed_password pw salt) = .ok b) ∧
    (∀ s : String, verify_password p (HashStr.raw s) = .error .unknownHash) :=
  ⟨⟨p == pw, rfl⟩, fun _ => rfl⟩

/-- C5: for every subject, secret and positive ttl, decoding the token
produced by the encoder with the same secret, at the encoding time,
succeeds and returns claims whose subject is the one encoded. -/
theorem token_roundtrip (s secret : String) (ttl now : Int) (h : 0 < ttl) :
    ∃ p : TokenPayload, jwtDecode (tokenEncode s secret ttl now) secret now = .ok p ∧ p.sub = s := by
  refine ⟨{ sub := s, exp := now + ttl }, ?_, rfl⟩
  simp [jwtDecode, tokenEncode]
  omega

/-- Witness for C5 at subject `a@x.com`, secret `ashish`, ttl 1800 s. -/
theorem token_roundtrip_witness :
    (0 : Int) < 1800 ∧
    ∃ p : TokenPayload,
      jwtDecode (tokenEncode "a@x.com" "ashish" 1800 0) "ashish" 0 = .ok p ∧ p.sub = "a@x.com" :=
  ⟨by decide, token_roundtrip "a@x.com" "ashish" 1800 0 (by decide)⟩

/-- C6: the login failure for an unknown email and the login failure for a
known email with a non-verifying password are the very same error — same
status 400 and same detail string. -/
theorem login_error_uniform (db : Db) (username password : String) (now : Int) :
    (dbGet db username = none →
      (login db username password now).fst = .error (.http 400 "Incorrect email or password")) ∧
    (∀ u : UserRecord, dbGet db username = some u →
      verify_password password u.password = .ok false →
      (login db username password now).fst = .error (.http 400 "Incorrect email or password")) := by
  constructor
  · intro h; simp [login, h]
  · intro u hu hv; simp [login, hu, hv]

/-- Witness for C6: both failure cases at concrete inputs produce the same
error value. -/
theorem login_error_uniform_witness :
    (login [] "a@x.com" "pw123" 0).fst = .error (.http 400 "Incorrect email or password") ∧
    (login [("a@x.com", { email := "a@x.com", password := HashStr.bcrypt "s1" "secret1", id := "id1" })]
        "a@x.com" "wrong" 0).fst = .error (.http 400 "Incorrect email or password") :=
  ⟨(login_error_uniform [] "a@x.com" "pw123" 0).1 rfl,
   (login_error_uniform
      [("a@x.com", { email := "a@x.com", password := HashStr.bcrypt "s1" "secret1", id := "id1" })]
      "a@x.com" "wrong" 0).2
     { email := "a@x.com", password := HashStr.bcrypt "s1" "secret1", id := "id1" } rfl rfl⟩

/-- C7: a password verifies against its own hash; a different password
does not verify against that hash; and hashing the same password under two
different salts (two calls, two random salts) yields two different hash
strings that both verify the password. -/
theorem hash_verify_properties (p p2 s s1 s2 : String) :
    verify_password p (get_hashed_password p s) = .ok true ∧
    (p ≠ p2 → verify_password p (get_hashed_password p2 s) = .ok false) ∧
    (s1 ≠ s2 →
      get_hashed_password p s1 ≠ get_hashed_password p s2 ∧
      verify_password p (get_hashed_password p s1) = .ok true ∧
      verify_password p (get_hashed_password p s2) = .ok true) := by
  refine ⟨?_, ?_, ?_⟩
  · simp [verify_password, get_hashed_password]
  · intro h; simp [verify_password, get_hashed_password, beq_eq_false_iff_ne, h]
  · intro h
    refine ⟨?_, ?_, ?_⟩
    · simp [get_hashed_password, h]
    · simp [verify_password, get_hashed_password]
    · simp [verify_password, get_hashed_password]

/-- Witness for C7 at passwords `secret1` and `secret2`, salts `sA` and `sB`. -/
theorem hash_verify_properties_witness :
    ("secret1" : String) ≠ "secret2" ∧ ("sA" : String) ≠ "sB" ∧
    verify_password "secret1" (get_hashed_password "secret2" "sA") = .ok false ∧
    get_hashed_password "secret1" "sA" ≠ get_hashed_password "secret1" "sB" ∧
    verify_password "secret1" (get_hashed_password "secret1" "sA") = .ok true :=
  ⟨by decide, by decide,
   (hash_verify_properties "secret1" "secret2" "sA" "sA" "sB").2.1 (by decide),
   ((hash_verify_properties "secret1" "secret2" "sA" "sA" "sB").2.2 (by decide)).1,
   (hash_verify_properties "secret1" "secret2" "sA" "sA" "sB").1⟩

/-- C8: the signup body validation accepts a password exactly when its
length lies in 5..24 inclusive, and an out-of-range password is rejected
with the validation error before the handler runs, leaving the store
untouched. -/
theorem password_length_validation (email password : String) (db : Db) (newId salt : String) :
    ((mkUserAuth email password).isSome ↔ (5 ≤ password.length ∧ password.length ≤ 24)) ∧
    (¬(5 ≤ password.length ∧ password.length ≤ 24) →
      signupRequest db email password newId salt = (.error (.http 422 "validation error"), db)) := by
  constructor
  · by_cases h : 5 ≤ password.length ∧ password.length ≤ 24
    · simp [mkUserAuth, h]
    · simp [mkUserAuth, h]
  · intro h; simp [signupRequest, mkUserAuth, h]

/-- Witness for C8: the three-character password `abc` is rejected with
the validation error and the (empty) store is unchanged. -/
theorem password_length_validation_witness :
    ¬(5 ≤ ("abc" : String).length ∧ ("abc" : String).length ≤ 24) ∧
    signupRequest [] "a@x.com" "abc" "id1" "s1" = (.error (.http 422 "validation error"), []) :=
  ⟨by decide, (password_length_validation "a@x.com" "abc" [] "id1" "s1").2 (by decide)⟩

/-- C9: the login handler never writes to the store — for every prior
store state and every credential pair, the store after login equals the
store before, whether login succeeds or fails. -/
theorem login_no_write (db : Db) (username password : String) (now : Int) :
    (login db username password now).snd = db := by
  unfold login
  (repeat' split) <;> rfl

/-- C10: calling either token creator with a non-`None` `expires_delta`
raises the `datetime + int` `TypeError` instead of producing a token, for
every subject and every integer delta; the `expires_delta = None` default
path returns a token. -/
theorem expires_delta_raises (subject : String) (d : Int) (now : Int) :
    create_access_token subject (some d) now = .error datetimePlusIntError ∧
    create_refresh_token subject (some d) now = .error datetimePlusIntError ∧
    (∃ t : Token, create_access_token subject none now = .ok t) ∧
    (∃ t : Token, create_refresh_token subject none now = .ok t) :=
  ⟨rfl, rfl, ⟨_, rfl⟩, ⟨_, rfl⟩⟩

end JWTAuth
